import Mathlib

/-!
Shallow embedding of the `qishenonly/logger` Go repository: the
daily-rotating file writer (`DailyRotateWriter`), the batching adapters
(`KafkaAdapter`, `ElasticsearchAdapter`), the adapter registry, the
dispatcher (`ZapLogger.sendToAdapters`) and the default-logger factory.
Machine integers are modelled as `Int`/`Nat`; fallible operations return
an explicit `Option GoErr`; the file system and the outcomes of external
I/O calls are passed explicitly.
-/

/-- Go `error` values as they occur in this repository: `os.ErrInvalid`
(returned by `(*os.File).Write` on a nil receiver), an opaque I/O error
carrying its message, and the `fmt.Errorf("...: %v", err)` wrapping used
in `rotateFile` and `NewZapLogger`. -/
inductive GoErr where
  | errInvalid : GoErr
  | ioError (msg : String) : GoErr
  | wrapped (msg : String) (cause : GoErr) : GoErr
deriving DecidableEq, Repr

/-- A wall-clock date, the only part of `time.Time` the rotation logic
reads (via `Format("2006-01-02")`, `Format("2006-01")`,
`Format("01-02.log")`). -/
structure Date where
  year : Nat
  month : Nat
  day : Nat
deriving DecidableEq, Repr

/-- One decimal digit character. -/
def digitChar (n : Nat) : Char := Char.ofNat (48 + n)

/-- Go's two-digit zero-padded field (format verbs `01`, `02`): for every
valid month or day (below 100) this agrees with `time.Format`. -/
def pad2 (n : Nat) : String := String.mk [digitChar (n / 10), digitChar (n % 10)]

/-- `now.Format("2006-01-02")`, the string `DailyRotateWriter` stores in
`currentDate`. -/
def fmtYMD (d : Date) : String :=
  Nat.repr d.year ++ "-" ++ pad2 d.month ++ "-" ++ pad2 d.day

/-- `now.Format("2006-01")`, the monthly archive directory name. -/
def fmtYM (d : Date) : String :=
  Nat.repr d.year ++ "-" ++ pad2 d.month

/-- `now.Format("01-02.log")`, the daily file name. -/
def dayFileName (d : Date) : String :=
  pad2 d.month ++ "-" ++ pad2 d.day ++ ".log"

/-- The full path `filepath.Join(logPath, monthDir, dayFile)` the writer
opens for date `d`. -/
def dailyPath (logPath : String) (d : Date) : String :=
  logPath ++ "/" ++ fmtYM d ++ "/" ++ dayFileName d

/-- Replace the value of the first binding of `p` in an association list. -/
def updateAssoc (l : List (String × List Nat)) (p : String) (f : List Nat → List Nat) :
    List (String × List Nat) :=
  match l with
  | [] => []
  | (q, v) :: rest =>
      if q = p then (q, f v) :: rest else (q, v) :: updateAssoc rest p f

/-- The file-system state the writer manipulates: file contents by path
(byte lists) and the set of existing directories. -/
structure FS where
  files : List (String × List Nat)
  dirs : List String
deriving DecidableEq, Repr

/-- Contents of the file at `p`, `none` when it does not exist. -/
def FS.lookupFile (fs : FS) (p : String) : Option (List Nat) :=
  fs.files.lookup p

/-- `os.MkdirAll`: idempotent directory creation. -/
def FS.mkdirAll (fs : FS) (d : String) : FS :=
  if d ∈ fs.dirs then fs else { fs with dirs := d :: fs.dirs }

/-- `os.OpenFile(p, O_CREATE|O_APPEND|O_WRONLY, 0644)`: creates the file
empty when absent, leaves existing contents untouched. -/
def FS.openAppend (fs : FS) (p : String) : FS :=
  match fs.files.lookup p with
  | some _ => fs
  | none => { fs with files := (p, []) :: fs.files }

/-- Append bytes to the file at `p` (the effect of `file.Write` on a
handle opened in append mode). -/
def FS.appendFile (fs : FS) (p : String) (bytes : List Nat) : FS :=
  { fs with files := updateAssoc fs.files p (fun v => v ++ bytes) }

/-- Outcomes of the external I/O calls a single `Write` can make, injected
explicitly: `file.Close`, `os.MkdirAll`, `os.OpenFile`, `file.Write`.
`none` means the call succeeds. -/
structure IoOracle where
  closeErr : Option GoErr := none
  mkdirErr : Option GoErr := none
  openErr : Option GoErr := none
  writeErr : Option GoErr := none
deriving DecidableEq, Repr

/-- `DailyRotateWriter`: the open handle is modelled by the path it was
opened at (`none` = nil `*os.File`), `currentDate` is the stored
`Format("2006-01-02")` string. -/
structure RWState where
  logPath : String
  file : Option String
  currentDate : String
deriving DecidableEq, Repr

/-- Second half of `rotateFile`, after the old handle has been dealt with:
update `currentDate`, create the month directory, open the day file. -/
def rotateOpen (now : Date) (ox : IoOracle) (w : RWState) (fs : FS) :
    RWState × FS × Option GoErr :=
  let w := { w with currentDate := fmtYMD now }
  let monthDirPath := w.logPath ++ "/" ++ fmtYM now
  match ox.mkdirErr with
  | some e => (w, fs, some (GoErr.wrapped "create month directory failed" e))
  | none =>
    let fs := fs.mkdirAll monthDirPath
    let logFileName := monthDirPath ++ "/" ++ dayFileName now
    match ox.openErr with
    | some e => (w, fs, some (GoErr.wrapped "open log file failed" e))
    | none => ({ w with file := some logFileName }, fs.openAppend logFileName, none)

/-- `DailyRotateWriter.rotateFile`. On a close failure the Go code
returns before clearing `w.file` or touching `w.currentDate`, so the
stale handle is retained. -/
def rotateFile (now : Date) (ox : IoOracle) (w : RWState) (fs : FS) :
    RWState × FS × Option GoErr :=
  match w.file with
  | some _ =>
    match ox.closeErr with
    | some e => (w, fs, some e)
    | none => rotateOpen now ox { w with file := none } fs
  | none => rotateOpen now ox w fs

/-- `file.Write(p)` at the end of `DailyRotateWriter.Write`: on a nil
handle Go's `(*os.File).Write` returns `os.ErrInvalid`. -/
def fileWrite (ox : IoOracle) (w : RWState) (fs : FS) (p : List Nat) :
    RWState × FS × (Nat × Option GoErr) :=
  match w.file with
  | none => (w, fs, (0, some GoErr.errInvalid))
  | some path =>
    match ox.writeErr with
    | some e => (w, fs, (0, some e))
    | none => (w, fs.appendFile path p, (p.length, none))

/-- `DailyRotateWriter.Write`: rotate when the wall-clock date differs
from the stored one, then append through the handle. -/
def writeRW (now : Date) (ox : IoOracle) (w : RWState) (fs : FS) (p : List Nat) :
    RWState × FS × (Nat × Option GoErr) :=
  if fmtYMD now ≠ w.currentDate then
    match rotateFile now ox w fs with
    | (w', fs', some e) => (w', fs', (0, some e))
    | (w', fs', none) => fileWrite ox w' fs' p
  else fileWrite ox w fs p

/-- `DailyRotateWriter.Close`: close the handle if any and clear it. -/
def closeRW (ox : IoOracle) (w : RWState) : RWState × Option GoErr :=
  match w.file with
  | some _ => ({ w with file := none }, ox.closeErr)
  | none => (w, none)

/-- `NewDailyRotateWriter`: a fresh writer rotated once. -/
def newDailyRotateWriter (now : Date) (ox : IoOracle) (logPath : String) (fs : FS) :
    RWState × FS × Option GoErr :=
  rotateFile now ox { logPath := logPath, file := none, currentDate := "" } fs

/-- Invariant maintained by the writer: an open handle is always bound to
the daily path of the date recorded in `currentDate`, and that file
exists on disk. -/
def RWInv (w : RWState) (fs : FS) : Prop :=
  ∀ p, w.file = some p →
    (∃ d : Date, w.currentDate = fmtYMD d ∧ p = dailyPath w.logPath d) ∧
    ∃ v, fs.lookupFile p = some v

/-- Go `interface{}` values as they occur in adapter configuration maps.
`float64` options are modelled by integer-valued floats (`num`): the Go
conversion `int(x)` is then the identity, and no claim depends on a
fractional value. -/
inductive GoVal where
  | str (s : String)
  | num (x : Int)
  | boolv (b : Bool)
  | list (l : List GoVal)

/-- `map[string]interface{}`: association list, first binding wins (Go
map keys are unique). -/
abbrev ConfigMap := List (String × GoVal)

/-- `logger.LogEntry`. `Time` is an abstract instant; `Properties` keeps
the open-ended extra mapping. -/
structure LogEntry where
  Level : String
  Time : Nat
  Message : String
  Caller : String
  NodeID : String
  Module : String
  IP : String
  Properties : List (String × GoVal)

/-- `time.Second` in nanoseconds (`time.Duration` is an int64 count of
nanoseconds). -/
def goSecond : Int := 1000000000

/-- `adapters.KafkaAdapter`. The Kafka producer is a stub in the source;
`sent` records, in order, each non-empty batch the flush path emits
(the observable destination output of `flushBuffer`). -/
structure KafkaAdapter where
  Brokers : List String := []
  Topic : String := ""
  BatchSize : Int := 0
  FlushTimeout : Int := 0
  buffer : List LogEntry := []
  sent : List (List LogEntry) := []

/-- The zero value `&KafkaAdapter{}` the registered creator returns. -/
def zeroKafka : KafkaAdapter := {}

/-- Keep only the string elements of a `[]interface{}` option, as the
`Init` loops do. -/
def stringsOf (l : List GoVal) : List String :=
  l.filterMap (fun v => match v with | GoVal.str s => some s | _ => none)

/-- `KafkaAdapter.Init`: each option falls back to its default when
missing or wrong-typed; always returns nil error. -/
def kafkaInit (cfg : ConfigMap) : KafkaAdapter × Option GoErr :=
  let brokers := match cfg.lookup "brokers" with
    | some (GoVal.list l) => stringsOf l
    | _ => ["localhost:9092"]
  let topic := match cfg.lookup "topic" with
    | some (GoVal.str s) => s
    | _ => "logs"
  let batchSize := match cfg.lookup "batch_size" with
    | some (GoVal.num x) => x
    | _ => 100
  let flushTimeout := match cfg.lookup "flush_timeout" with
    | some (GoVal.num x) => x * goSecond
    | _ => 5 * goSecond
  ({ Brokers := brokers, Topic := topic, BatchSize := batchSize,
     FlushTimeout := flushTimeout, buffer := [], sent := [] }, none)

/-- `KafkaAdapter.flushBuffer` (runs under the buffer lock): empty buffer
is a no-op; otherwise the whole buffer is emitted as one batch and the
buffer is cleared. The stub send never fails. -/
def kafkaFlushBuffer (a : KafkaAdapter) : KafkaAdapter × Option GoErr :=
  if a.buffer.length = 0 then (a, none)
  else ({ a with buffer := [], sent := a.sent ++ [a.buffer] }, none)

/-- `KafkaAdapter.Flush`: take the lock and flush. -/
def kafkaFlush (a : KafkaAdapter) : KafkaAdapter × Option GoErr :=
  kafkaFlushBuffer a

/-- `KafkaAdapter.Process`: append, then flush synchronously when the
buffer length has reached `BatchSize`. -/
def kafkaProcess (a : KafkaAdapter) (e : LogEntry) : KafkaAdapter × Option GoErr :=
  let a := { a with buffer := a.buffer ++ [e] }
  if (a.buffer.length : Int) ≥ a.BatchSize then kafkaFlushBuffer a
  else (a, none)

/-- `KafkaAdapter.Close`: one final flush. -/
def kafkaClose (a : KafkaAdapter) : KafkaAdapter × Option GoErr :=
  kafkaFlush a

/-- `adapters.ElasticsearchAdapter`, same batching pattern with its own
option names and defaults. -/
structure EsAdapter where
  Hosts : List String := []
  Index : String := ""
  Username : String := ""
  Password : String := ""
  BulkSize : Int := 0
  FlushInterval : Int := 0
  buffer : List LogEntry := []
  sent : List (List LogEntry) := []

/-- The zero value `&ElasticsearchAdapter{}` the registered creator
returns. -/
def zeroEs : EsAdapter := {}

/-- `now.Format("2006.01.02")`, used for the default index name. -/
def fmtDotted (d : Date) : String :=
  Nat.repr d.year ++ "." ++ pad2 d.month ++ "." ++ pad2 d.day

/-- `ElasticsearchAdapter.Init` (the default index name reads the current
date, hence the `now` parameter): always returns nil error. -/
def esInit (now : Date) (cfg : ConfigMap) : EsAdapter × Option GoErr :=
  let hosts := match cfg.lookup "hosts" with
    | some (GoVal.list l) => stringsOf l
    | _ => ["http://localhost:9200"]
  let index := match cfg.lookup "index" with
    | some (GoVal.str s) => s
    | _ => "logs-" ++ fmtDotted now
  let username := match cfg.lookup "username" with
    | some (GoVal.str s) => s
    | _ => ""
  let password := match cfg.lookup "password" with
    | some (GoVal.str s) => s
    | _ => ""
  let bulkSize := match cfg.lookup "bulk_size" with
    | some (GoVal.num x) => x
    | _ => 200
  let flushInterval := match cfg.lookup "flush_interval" with
    | some (GoVal.num x) => x * goSecond
    | _ => 10 * goSecond
  ({ Hosts := hosts, Index := index, Username := username, Password := password,
     BulkSize := bulkSize, FlushInterval := flushInterval,
     buffer := [], sent := [] }, none)

/-- `ElasticsearchAdapter.flushBuffer`. -/
def esFlushBuffer (a : EsAdapter) : EsAdapter × Option GoErr :=
  if a.buffer.length = 0 then (a, none)
  else ({ a with buffer := [], sent := a.sent ++ [a.buffer] }, none)

/-- `ElasticsearchAdapter.Flush`. -/
def esFlush (a : EsAdapter) : EsAdapter × Option GoErr :=
  esFlushBuffer a

/-- `ElasticsearchAdapter.Process`. -/
def esProcess (a : EsAdapter) (e : LogEntry) : EsAdapter × Option GoErr :=
  let a := { a with buffer := a.buffer ++ [e] }
  if (a.buffer.length : Int) ≥ a.BulkSize then esFlushBuffer a
  else (a, none)

/-- `ElasticsearchAdapter.Close`. -/
def esClose (a : EsAdapter) : EsAdapter × Option GoErr :=
  esFlush a

/-- The `TestAdapter` mock from the repository's adapter tests:
configurable results for each operation, recording received entries. -/
structure TestAdapter where
  tname : String := ""
  received : List LogEntry := []
  initCfg : ConfigMap := []
  initErr : Option GoErr := none
  processErr : Option GoErr := none
  flushErr : Option GoErr := none
  closeErr : Option GoErr := none

/-- A value implementing the `LogAdapter` interface: one constructor per
implementing type in the repository. -/
inductive AdapterObj where
  | kafka (a : KafkaAdapter)
  | elastic (a : EsAdapter)
  | test (a : TestAdapter)

/-- `LogAdapter.Name`. -/
def AdapterObj.nameA : AdapterObj → String
  | .kafka _ => "kafka"
  | .elastic _ => "elasticsearch"
  | .test a => a.tname

/-- `LogAdapter.Init`, dispatched by implementing type. -/
def AdapterObj.initA (now : Date) : AdapterObj → ConfigMap → AdapterObj × Option GoErr
  | .kafka _, cfg => let r := kafkaInit cfg; (.kafka r.1, r.2)
  | .elastic _, cfg => let r := esInit now cfg; (.elastic r.1, r.2)
  | .test a, cfg => (.test { a with initCfg := cfg }, a.initErr)

/-- `LogAdapter.Process`, dispatched by implementing type. -/
def AdapterObj.processA : AdapterObj → LogEntry → AdapterObj × Option GoErr
  | .kafka a, e => let r := kafkaProcess a e; (.kafka r.1, r.2)
  | .elastic a, e => let r := esProcess a e; (.elastic r.1, r.2)
  | .test a, e =>
    match a.processErr with
    | some err => (.test a, some err)
    | none => (.test { a with received := a.received ++ [e] }, none)

/-- `LogAdapter.Flush`, dispatched by implementing type. -/
def AdapterObj.flushA : AdapterObj → AdapterObj × Option GoErr
  | .kafka a => let r := kafkaFlush a; (.kafka r.1, r.2)
  | .elastic a => let r := esFlush a; (.elastic r.1, r.2)
  | .test a => (.test a, a.flushErr)

/-- The process-wide `adapterRegistry`: name to constructor. A registered
constructor is modelled by the value it builds on each call (`&T{}`, the
type's zero value for the adapters of this repository). -/
abbrev Registry := List (String × AdapterObj)

/-- `RegisterAdapter`: the newest binding shadows any earlier one for the
same name (last registration wins). -/
def registerAdapter (reg : Registry) (nm : String) (c : AdapterObj) : Registry :=
  (nm, c) :: reg

/-- Lookup in the registry (Go map indexing). -/
def lookupCreator (reg : Registry) (nm : String) : Option AdapterObj :=
  reg.lookup nm

/-- The heap of adapter instances constructed so far; `GetAdapter`
allocates, so freshness is visible as a new index. -/
abbrev Heap := List AdapterObj

/-- `GetAdapter`: not-found yields `none`; otherwise the creator runs and
a fresh instance (new heap index) is returned together with the value the
constructor built. -/
def getAdapter (reg : Registry) (heap : Heap) (nm : String) :
    Option (Nat × AdapterObj) × Heap :=
  match reg.lookup nm with
  | none => (none, heap)
  | some c => (some (heap.length, c), heap ++ [c])

/-- The registry after the two `init()` registrations in
`adapters/kafka.go`. -/
def builtinRegistry : Registry :=
  registerAdapter (registerAdapter [] "kafka" (AdapterObj.kafka zeroKafka))
    "elasticsearch" (AdapterObj.elastic zeroEs)

/-- `logger.AdapterConfig`. -/
structure AdapterConfig where
  Name : String
  Config : ConfigMap

/-- The adapter-initialization loop of `NewZapLogger`: an unregistered
name is skipped silently; a registered adapter whose `Init` errors aborts
the whole construction with a wrapped error. -/
def initAdapters (now : Date) (reg : Registry) :
    List AdapterConfig → Except GoErr (List AdapterObj)
  | [] => Except.ok []
  | c :: rest =>
    match reg.lookup c.Name with
    | none => initAdapters now reg rest
    | some creator =>
      match creator.initA now c.Config with
      | (_, some e) =>
          Except.error (GoErr.wrapped ("init adapter " ++ c.Name ++ " failed") e)
      | (a, none) => (initAdapters now reg rest).map (fun l => a :: l)

/-- `logger.ZapLogger`: the adapter list plus the common fields stamped
onto every entry (the zap core itself is the external encoder). -/
structure ZapLogger where
  adapters : List AdapterObj
  nodeID : String
  module : String
  ip : String

/-- `NewZapLogger`, restricted to the state the claims observe: the
adapter list built by `initAdapters` and the common fields. The zap
console/file cores are external encoders; a rotator failure would also
abort construction but is orthogonal to the adapter loop. -/
def newZapLogger (now : Date) (reg : Registry) (nodeID module ip : String)
    (adapterConfigs : List AdapterConfig) : Except GoErr ZapLogger :=
  (initAdapters now reg adapterConfigs).map
    (fun l => { adapters := l, nodeID := nodeID, module := module, ip := ip })

/-- `ZapLogger.sendToAdapters`: build one entry, then spawn one
fire-and-forget task per adapter, each task holding its own copy of the
entry. The returned list is the spawned tasks; the function itself
returns nothing to its caller. -/
def sendToAdapters (l : ZapLogger) (tnow : Nat) (level msg : String)
    (props : List (String × GoVal)) : List (AdapterObj × LogEntry) :=
  if l.adapters.length = 0 then []
  else
    let entry : LogEntry :=
      { Level := level, Time := tnow, Message := msg, Caller := "",
        NodeID := l.nodeID, Module := l.module, IP := l.ip, Properties := props }
    l.adapters.map (fun a => (a, entry))

/-- Run the spawned tasks (`_ = a.Process(ctx, e)` inside each goroutine):
every result, error or not, is produced here and nowhere else. -/
def runSpawned (tasks : List (AdapterObj × LogEntry)) :
    List (AdapterObj × Option GoErr) :=
  tasks.map (fun t => t.1.processA t.2)

/-- A leveled logging call (`Info`, `Error`, ...) as the caller sees it:
the caller-visible error slot (the Go methods return nothing, so it is
always `none`) paired with the results the spawned tasks later produce
and discard. -/
def leveledCall (l : ZapLogger) (tnow : Nat) (level msg : String)
    (props : List (String × GoVal)) :
    Option GoErr × List (AdapterObj × Option GoErr) :=
  (none, runSpawned (sendToAdapters l tnow level msg props))

/-- The values `logger.Default` can return: a constructed `ZapLogger` or
the degraded `emptyLogger`. -/
inductive LoggerVal where
  | zap (l : ZapLogger)
  | empty

/-- `emptyLogger.Close`: always nil. -/
def emptyClose : Option GoErr := none

/-- A leveled call on `emptyLogger`: spawns no tasks and produces no
output (every method body is empty). -/
def emptyLeveled (_tnow : Nat) (_level _msg : String) :
    Option GoErr × List (AdapterObj × Option GoErr) :=
  (none, [])

/-- `logger.Default`: returns the stored logger when present; otherwise
stores and returns the console logger, or `emptyLogger` when building
the console logger failed. `consoleRes` is the outcome of
`NewZapLogger("info", "", "", "default", "", OutputTerminal, nil)` —
passed in because its only failure sources are outside this module.
Returns (result, new stored default). -/
def defaultGet (cur : Option LoggerVal) (consoleRes : Except GoErr ZapLogger) :
    LoggerVal × Option LoggerVal :=
  match cur with
  | some l => (l, some l)
  | none =>
    match consoleRes with
    | Except.error _ => (LoggerVal.empty, some LoggerVal.empty)
    | Except.ok l => (LoggerVal.zap l, some (LoggerVal.zap l))

theorem lookup_updateAssoc_self (l : List (String × List Nat)) (p : String)
    (f : List Nat → List Nat) :
    (updateAssoc l p f).lookup p = (l.lookup p).map f := by
  induction l with
  | nil => rfl
  | cons hd tl ih =>
    obtain ⟨q, v⟩ := hd
    by_cases hq : q = p
    · subst hq
      simp [updateAssoc, List.lookup]
    · have hb : (p == q) = false := beq_eq_false_iff_ne.mpr (Ne.symm hq)
      simp [updateAssoc, hq, List.lookup, hb, ih]

theorem lookup_updateAssoc_ne (l : List (String × List Nat)) (p q : String)
    (f : List Nat → List Nat) (h : q ≠ p) :
    (updateAssoc l p f).lookup q = l.lookup q := by
  induction l with
  | nil => rfl
  | cons hd tl ih =>
    obtain ⟨r, v⟩ := hd
    by_cases hr : r = p
    · subst hr
      have hb : (q == r) = false := beq_eq_false_iff_ne.mpr h
      simp [updateAssoc, List.lookup, hb]
    · simp [updateAssoc, hr, List.lookup, ih]

theorem lookupFile_mkdirAll (fs : FS) (d : String) (q : String) :
    (fs.mkdirAll d).lookupFile q = fs.lookupFile q := by
  unfold FS.mkdirAll FS.lookupFile
  split <;> rfl

theorem lookupFile_openAppend_self (fs : FS) (p : String) :
    (fs.openAppend p).lookupFile p = some ((fs.lookupFile p).getD []) := by
  unfold FS.openAppend FS.lookupFile
  cases h : fs.files.lookup p with
  | some v => simp [h]
  | none => simp [h, List.lookup]

theorem lookupFile_openAppend_ne (fs : FS) (p q : String) (h : q ≠ p) :
    (fs.openAppend p).lookupFile q = fs.lookupFile q := by
  unfold FS.openAppend FS.lookupFile
  cases hl : fs.files.lookup p with
  | some v => rfl
  | none =>
    have hb : (q == p) = false := beq_eq_false_iff_ne.mpr h
    simp [List.lookup, hb]

theorem lookupFile_appendFile_self (fs : FS) (p : String) (bytes : List Nat) :
    (fs.appendFile p bytes).lookupFile p = (fs.lookupFile p).map (· ++ bytes) := by
  unfold FS.appendFile FS.lookupFile
  exact lookup_updateAssoc_self fs.files p _

theorem lookupFile_appendFile_ne (fs : FS) (p q : String) (bytes : List Nat)
    (h : q ≠ p) :
    (fs.appendFile p bytes).lookupFile q = fs.lookupFile q := by
  unfold FS.appendFile FS.lookupFile
  exact lookup_updateAssoc_ne fs.files p q _ h

theorem fmtYMD_inj_parts {d1 d2 : Date} (h : fmtYMD d1 = fmtYMD d2) :
    fmtYM d1 = fmtYM d2 ∧ dayFileName d1 = dayFileName d2 := by
  have hd : (fmtYMD d1).data = (fmtYMD d2).data := by rw [h]
  simp only [fmtYMD, pad2, String.data_append] at hd
  have hd2 : (Nat.repr d1.year).data ++
      ['-', digitChar (d1.month / 10), digitChar (d1.month % 10), '-',
       digitChar (d1.day / 10), digitChar (d1.day % 10)] =
      (Nat.repr d2.year).data ++
      ['-', digitChar (d2.month / 10), digitChar (d2.month % 10), '-',
       digitChar (d2.day / 10), digitChar (d2.day % 10)] := by
    simpa using hd
  obtain ⟨hy, hrest⟩ := List.append_inj' hd2 rfl
  simp only [List.cons.injEq] at hrest
  have hyr : Nat.repr d1.year = Nat.repr d2.year := String.ext hy
  constructor
  · simp [fmtYM, pad2, hyr, hrest.2.1, hrest.2.2.1]
  · simp [dayFileName, pad2, hrest.2.1, hrest.2.2.1, hrest.2.2.2.1, hrest.2.2.2.2]

theorem dailyPath_congr {d1 d2 : Date} (root : String) (h : fmtYMD d1 = fmtYMD d2) :
    dailyPath root d1 = dailyPath root d2 := by
  obtain ⟨h1, h2⟩ := fmtYMD_inj_parts h
  simp [dailyPath, h1, h2]

/-- Claim C1: every successful write appends its bytes to the file
`<root>/<YYYY-MM>/<MM-DD>.log` for the wall-clock date current at the
time of the write: after the write the handle is bound to that path,
exactly that file gained the bytes, and the writer invariant is
preserved, so all writes on the same date go to that one file. -/
theorem writeRW_appends_to_daily_file
    (now : Date) (ox : IoOracle) (w : RWState) (fs : FS) (p : List Nat)
    (hInv : RWInv w fs)
    (hok : (writeRW now ox w fs p).2.2.2 = none) :
    (writeRW now ox w fs p).1.logPath = w.logPath ∧
    (writeRW now ox w fs p).1.currentDate = fmtYMD now ∧
    (writeRW now ox w fs p).1.file = some (dailyPath w.logPath now) ∧
    (writeRW now ox w fs p).2.2.1 = p.length ∧
    (writeRW now ox w fs p).2.1.lookupFile (dailyPath w.logPath now)
      = some ((fs.lookupFile (dailyPath w.logPath now)).getD [] ++ p) ∧
    (∀ q, q ≠ dailyPath w.logPath now →
      (writeRW now ox w fs p).2.1.lookupFile q = fs.lookupFile q) ∧
    RWInv (writeRW now ox w fs p).1 (writeRW now ox w fs p).2.1 := by
  by_cases hdate : fmtYMD now = w.currentDate
  · have hcond : ¬ (fmtYMD now ≠ w.currentDate) := by simpa using hdate
    simp only [writeRW, if_neg hcond] at hok ⊢
    cases hw : w.file with
    | none => simp [fileWrite, hw] at hok
    | some path =>
      obtain ⟨⟨d, hcd, hpath⟩, v, hv⟩ := hInv path hw
      have hP : dailyPath w.logPath now = path := by
        rw [hpath]
        exact dailyPath_congr w.logPath (hdate.trans hcd)
      cases hwr : ox.writeErr with
      | some e => simp [fileWrite, hw, hwr] at hok
      | none =>
        have hres : fileWrite ox w fs p = (w, fs.appendFile path p, (p.length, none)) := by
          simp [fileWrite, hw, hwr]
        rw [hres]
        refine ⟨rfl, hdate.symm, ?_, rfl, ?_, ?_, ?_⟩
        · rw [hw, hP]
        · rw [hP, lookupFile_appendFile_self, hv]
          rfl
        · intro q hq
          exact lookupFile_appendFile_ne fs path q p (hP ▸ hq)
        · intro p' hp'
          rw [hw] at hp'
          cases hp'
          refine ⟨⟨d, hcd, hpath⟩, v ++ p, ?_⟩
          rw [lookupFile_appendFile_self, hv]
          rfl
  · have hmain : ∀ wz : RWState, wz.logPath = w.logPath →
        rotateFile now ox w fs = rotateOpen now ox wz fs →
        ((writeRW now ox w fs p).1.logPath = w.logPath ∧
        (writeRW now ox w fs p).1.currentDate = fmtYMD now ∧
        (writeRW now ox w fs p).1.file = some (dailyPath w.logPath now) ∧
        (writeRW now ox w fs p).2.2.1 = p.length ∧
        (writeRW now ox w fs p).2.1.lookupFile (dailyPath w.logPath now)
          = some ((fs.lookupFile (dailyPath w.logPath now)).getD [] ++ p) ∧
        (∀ q, q ≠ dailyPath w.logPath now →
          (writeRW now ox w fs p).2.1.lookupFile q = fs.lookupFile q) ∧
        RWInv (writeRW now ox w fs p).1 (writeRW now ox w fs p).2.1) := by
      intro wz hlp hreq
      cases hm : ox.mkdirErr with
      | some e => exfalso; simp [writeRW, hdate, hreq, rotateOpen, hm] at hok
      | none =>
      cases ho : ox.openErr with
      | some e => exfalso; simp [writeRW, hdate, hreq, rotateOpen, hm, ho] at hok
      | none =>
      cases hwr : ox.writeErr with
      | some e => exfalso; simp [writeRW, hdate, hreq, rotateOpen, fileWrite, hm, ho, hwr] at hok
      | none =>
        have hroeq : rotateOpen now ox wz fs =
            ({ wz with currentDate := fmtYMD now, file := some (dailyPath wz.logPath now) },
             (fs.mkdirAll (wz.logPath ++ "/" ++ fmtYM now)).openAppend
               (dailyPath wz.logPath now), none) := by
          simp [rotateOpen, dailyPath, hm, ho]
        have heq : writeRW now ox w fs p =
            ({ wz with currentDate := fmtYMD now, file := some (dailyPath wz.logPath now) },
             ((fs.mkdirAll (wz.logPath ++ "/" ++ fmtYM now)).openAppend
               (dailyPath wz.logPath now)).appendFile (dailyPath wz.logPath now) p,
             (p.length, none)) := by
          simp [writeRW, hdate, hreq, hroeq, fileWrite, hwr]
        rw [heq, hlp]
        refine ⟨rfl, rfl, rfl, rfl, ?_, ?_, ?_⟩
        · rw [lookupFile_appendFile_self, lookupFile_openAppend_self, lookupFile_mkdirAll]
          rfl
        · intro q hq
          rw [lookupFile_appendFile_ne _ _ _ _ hq, lookupFile_openAppend_ne _ _ _ hq,
            lookupFile_mkdirAll]
        · intro p' hp'
          simp only [Option.some.injEq] at hp'
          subst hp'
          refine ⟨⟨now, rfl, rfl⟩, (fs.lookupFile (dailyPath w.logPath now)).getD [] ++ p, ?_⟩
          rw [lookupFile_appendFile_self, lookupFile_openAppend_self, lookupFile_mkdirAll]
          rfl
    cases hw : w.file with
    | some old =>
      cases hc : ox.closeErr with
      | some e => exfalso; simp [writeRW, hdate, rotateFile, hw, hc] at hok
      | none =>
        exact hmain { w with file := none } rfl (by simp [rotateFile, hw, hc])
    | none =>
      exact hmain w rfl (by simp [rotateFile, hw])

/-- A writer state as left by a successful write on 2023-03-15 with root
`./logs` (the end-to-end scenario of the specification). -/
def wMar15 : RWState :=
  { logPath := "./logs", file := some "./logs/2023-03/03-15.log",
    currentDate := "2023-03-15" }

/-- The matching on-disk state: the March 15 file exists and is empty. -/
def fsMar15 : FS :=
  { files := [("./logs/2023-03/03-15.log", [])], dirs := ["./logs/2023-03"] }

/-- An oracle on which only `file.Close` fails. -/
def oxCloseFail : IoOracle := { closeErr := some (GoErr.ioError "close failed") }

/-- Claim C3 counterexample: on a date change with a failing close, the
close error is returned as the write error, but the old handle is NOT
discarded — `w.file` still holds the stale handle, contradicting the
claim that the handle is discarded regardless. -/
theorem rotate_close_failure_cex :
    (writeRW ⟨2023, 3, 16⟩ oxCloseFail wMar15 fsMar15 [7]).2.2.2
      = some (GoErr.ioError "close failed") ∧
    (writeRW ⟨2023, 3, 16⟩ oxCloseFail wMar15 fsMar15 [7]).1.file
      = some "./logs/2023-03/03-15.log" := by decide

/-- Claim C3 (amended): when a write detects a date change and closing
the open handle fails, the close error is returned as the write error
and the writer state is left untouched: the stale handle is retained
(`w.file` is cleared only after a successful close). -/
theorem rotate_close_failure_returns_error_retains_handle (now : Date) (ox : IoOracle) (w : RWState) (fs : FS)
    (p : List Nat) (e : GoErr)
    (hd : fmtYMD now ≠ w.currentDate) (q : String) (hq : w.file = some q)
    (hc : ox.closeErr = some e) :
    writeRW now ox w fs p = (w, fs, (0, some e)) := by
  simp [writeRW, hd, rotateFile, hq, hc]

/-- Claim C4 counterexample: with no open handle and an unchanged date,
the next write returns `os.ErrInvalid` and performs no directory
creation or file open — it does not re-run the open sequence as the
claim states. -/
theorem write_missing_handle_cex :
    (writeRW ⟨2023, 3, 15⟩ {} { logPath := "./logs", file := none, currentDate := "2023-03-15" } fsMar15 [7]).2.2.2 = some GoErr.errInvalid ∧
    (writeRW ⟨2023, 3, 15⟩ {} { logPath := "./logs", file := none, currentDate := "2023-03-15" } fsMar15 [7]).1.file = none := by decide

/-- Claim C4 (amended): when the sink has no open handle while the
recorded date still equals today, the next write does not re-open; it
fails with Go's invalid-handle error (no panic) and leaves the writer
and the file system unchanged. The open sequence re-runs only when the
date differs. -/
theorem write_missing_handle_errors_without_reopen (now : Date) (ox : IoOracle) (w : RWState) (fs : FS)
    (p : List Nat) (hf : w.file = none) (hd : w.currentDate = fmtYMD now) :
    writeRW now ox w fs p = (w, fs, (0, some GoErr.errInvalid)) := by
  simp [writeRW, hd, fileWrite, hf]

/-- Witness for claim C1 at the end-to-end scenario of the spec: root
`./logs`, date 2023-03-15, one write of one byte lands in
`./logs/2023-03/03-15.log`. -/
theorem writeRW_appends_to_daily_file_witness :
    RWInv wMar15 fsMar15 ∧
    (writeRW ⟨2023, 3, 15⟩ {} wMar15 fsMar15 [10]).2.2.2 = none ∧
    (writeRW ⟨2023, 3, 15⟩ {} wMar15 fsMar15 [10]).2.1.lookupFile
      "./logs/2023-03/03-15.log" = some [10] := by
  have hinv : RWInv wMar15 fsMar15 := by
    intro p hp
    simp only [wMar15, Option.some.injEq] at hp
    subst hp
    exact ⟨⟨⟨2023, 3, 15⟩, by decide, by decide⟩, [], by decide⟩
  have h := writeRW_appends_to_daily_file ⟨2023, 3, 15⟩ {} wMar15 fsMar15 [10]
    hinv (by decide)
  refine ⟨hinv, by decide, ?_⟩
  have h5 := h.2.2.2.2.1
  have hp : dailyPath wMar15.logPath ⟨2023, 3, 15⟩ = "./logs/2023-03/03-15.log" := by decide
  have hl : fsMar15.lookupFile "./logs/2023-03/03-15.log" = some [] := by decide
  rw [hp, hl] at h5
  simpa using h5

/-- Witness for the amended claim C3 at a concrete rotation with a
failing close. -/
theorem rotate_close_failure_witness :
    fmtYMD ⟨2023, 3, 16⟩ ≠ wMar15.currentDate ∧
    wMar15.file = some "./logs/2023-03/03-15.log" ∧
    oxCloseFail.closeErr = some (GoErr.ioError "close failed") ∧
    writeRW ⟨2023, 3, 16⟩ oxCloseFail wMar15 fsMar15 [7]
      = (wMar15, fsMar15, (0, some (GoErr.ioError "close failed"))) :=
  ⟨by decide, rfl, rfl,
    rotate_close_failure_returns_error_retains_handle ⟨2023, 3, 16⟩ oxCloseFail
      wMar15 fsMar15 [7] (GoErr.ioError "close failed") (by decide)
      "./logs/2023-03/03-15.log" rfl rfl⟩

/-- Witness for the amended claim C4: missing handle, unchanged date. -/
theorem write_missing_handle_witness :
    ({ logPath := "./logs", file := none, currentDate := "2023-03-15" } : RWState).file = none ∧
    ({ logPath := "./logs", file := none, currentDate := "2023-03-15" } : RWState).currentDate = fmtYMD ⟨2023, 3, 15⟩ ∧
    writeRW ⟨2023, 3, 15⟩ {} { logPath := "./logs", file := none, currentDate := "2023-03-15" } fsMar15 [7]
      = ({ logPath := "./logs", file := none, currentDate := "2023-03-15" }, fsMar15, (0, some GoErr.errInvalid)) :=
  ⟨rfl, by decide,
    write_missing_handle_errors_without_reopen ⟨2023, 3, 15⟩ {}
      { logPath := "./logs", file := none, currentDate := "2023-03-15" } fsMar15 [7]
      rfl (by decide)⟩

/-- Claim C2: for a batching adapter with batch size B, a process call
that brings the buffer to length B flushes exactly once synchronously
(one new batch emitted, buffer left empty, nil error); a process call
that leaves the buffer below B only appends the entry and emits no
batch. Stated for both KafkaAdapter and ElasticsearchAdapter. -/
theorem process_batch_threshold (a : KafkaAdapter) (b : EsAdapter) (e : LogEntry) :
    (((a.buffer.length + 1 : Int) = a.BatchSize →
        kafkaProcess a e
          = ({ a with buffer := [], sent := a.sent ++ [a.buffer ++ [e]] }, none)) ∧
     ((a.buffer.length + 1 : Int) < a.BatchSize →
        kafkaProcess a e = ({ a with buffer := a.buffer ++ [e] }, none))) ∧
    (((b.buffer.length + 1 : Int) = b.BulkSize →
        esProcess b e
          = ({ b with buffer := [], sent := b.sent ++ [b.buffer ++ [e]] }, none)) ∧
     ((b.buffer.length + 1 : Int) < b.BulkSize →
        esProcess b e = ({ b with buffer := b.buffer ++ [e] }, none))) := by
  refine ⟨⟨?_, ?_⟩, ?_, ?_⟩
  · intro h
    unfold kafkaProcess
    rw [if_pos (by simp only [List.length_append, List.length_cons, List.length_nil]; omega)]
    unfold kafkaFlushBuffer
    rw [if_neg (by simp)]
  · intro h
    unfold kafkaProcess
    rw [if_neg (by simp only [List.length_append, List.length_cons, List.length_nil]; omega)]
  · intro h
    unfold esProcess
    rw [if_pos (by simp only [List.length_append, List.length_cons, List.length_nil]; omega)]
    unfold esFlushBuffer
    rw [if_neg (by simp)]
  · intro h
    unfold esProcess
    rw [if_neg (by simp only [List.length_append, List.length_cons, List.length_nil]; omega)]

/-- Claim C5: for both batching adapters, flush on an empty buffer is a
no-op returning no error, and flush is idempotent: a second flush right
after any flush is a no-op returning no error with the buffer empty. -/
theorem flush_empty_noop_and_idempotent (a : KafkaAdapter) (b : EsAdapter) :
    ((a.buffer = [] → kafkaFlush a = (a, none)) ∧
     kafkaFlush ((kafkaFlush a).1) = ((kafkaFlush a).1, none) ∧
     (kafkaFlush ((kafkaFlush a).1)).1.buffer = []) ∧
    ((b.buffer = [] → esFlush b = (b, none)) ∧
     esFlush ((esFlush b).1) = ((esFlush b).1, none) ∧
     (esFlush ((esFlush b).1)).1.buffer = []) := by
  constructor
  · refine ⟨?_, ?_, ?_⟩
    · intro h
      simp [kafkaFlush, kafkaFlushBuffer, h]
    · by_cases h : a.buffer.length = 0
      · simp [kafkaFlush, kafkaFlushBuffer, h, List.length_eq_zero.mp h]
      · simp [kafkaFlush, kafkaFlushBuffer, h]
    · by_cases h : a.buffer.length = 0
      · simp [kafkaFlush, kafkaFlushBuffer, h, List.length_eq_zero.mp h]
      · simp [kafkaFlush, kafkaFlushBuffer, h]
  · refine ⟨?_, ?_, ?_⟩
    · intro h
      simp [esFlush, esFlushBuffer, h]
    · by_cases h : b.buffer.length = 0
      · simp [esFlush, esFlushBuffer, h, List.length_eq_zero.mp h]
      · simp [esFlush, esFlushBuffer, h]
    · by_cases h : b.buffer.length = 0
      · simp [esFlush, esFlushBuffer, h, List.length_eq_zero.mp h]
      · simp [esFlush, esFlushBuffer, h]

def notListOpt (v : Option GoVal) : Prop := ∀ l, v ≠ some (GoVal.list l)
def notStrOpt (v : Option GoVal) : Prop := ∀ s, v ≠ some (GoVal.str s)
def notNumOpt (v : Option GoVal) : Prop := ∀ x, v ≠ some (GoVal.num x)

/-- Claim C6: Init of both adapters returns no error on every
configuration map, and every missing or wrong-typed option takes its
documented default (Kafka: brokers [localhost:9092], topic logs, batch
size 100, flush timeout 5s; Elasticsearch: hosts
[http://localhost:9200], bulk size 200, flush interval 10s). -/
theorem init_never_fails_defaults (cfg : ConfigMap) (now : Date) :
    (kafkaInit cfg).2 = none ∧ (esInit now cfg).2 = none ∧
    (notListOpt (cfg.lookup "brokers") →
      (kafkaInit cfg).1.Brokers = ["localhost:9092"]) ∧
    (notStrOpt (cfg.lookup "topic") → (kafkaInit cfg).1.Topic = "logs") ∧
    (notNumOpt (cfg.lookup "batch_size") → (kafkaInit cfg).1.BatchSize = 100) ∧
    (notNumOpt (cfg.lookup "flush_timeout") →
      (kafkaInit cfg).1.FlushTimeout = 5 * goSecond) ∧
    (notListOpt (cfg.lookup "hosts") →
      (esInit now cfg).1.Hosts = ["http://localhost:9200"]) ∧
    (notNumOpt (cfg.lookup "bulk_size") → (esInit now cfg).1.BulkSize = 200) ∧
    (notNumOpt (cfg.lookup "flush_interval") →
      (esInit now cfg).1.FlushInterval = 10 * goSecond) := by
  refine ⟨rfl, rfl, ?_, ?_, ?_, ?_, ?_, ?_, ?_⟩
  · intro h
    unfold kafkaInit
    cases hv : cfg.lookup "brokers" with
    | none => rfl
    | some v =>
      cases v with
      | list l => exact absurd hv (h l)
      | str s => rfl
      | num x => rfl
      | boolv b => rfl
  · intro h
    unfold kafkaInit
    cases hv : cfg.lookup "topic" with
    | none => rfl
    | some v =>
      cases v with
      | str s => exact absurd hv (h s)
      | list l => rfl
      | num x => rfl
      | boolv b => rfl
  · intro h
    unfold kafkaInit
    cases hv : cfg.lookup "batch_size" with
    | none => rfl
    | some v =>
      cases v with
      | num x => exact absurd hv (h x)
      | str s => rfl
      | list l => rfl
      | boolv b => rfl
  · intro h
    unfold kafkaInit
    cases hv : cfg.lookup "flush_timeout" with
    | none => rfl
    | some v =>
      cases v with
      | num x => exact absurd hv (h x)
      | str s => rfl
      | list l => rfl
      | boolv b => rfl
  · intro h
    unfold esInit
    cases hv : cfg.lookup "hosts" with
    | none => rfl
    | some v =>
      cases v with
      | list l => exact absurd hv (h l)
      | str s => rfl
      | num x => rfl
      | boolv b => rfl
  · intro h
    unfold esInit
    cases hv : cfg.lookup "bulk_size" with
    | none => rfl
    | some v =>
      cases v with
      | num x => exact absurd hv (h x)
      | str s => rfl
      | list l => rfl
      | boolv b => rfl
  · intro h
    unfold esInit
    cases hv : cfg.lookup "flush_interval" with
    | none => rfl
    | some v =>
      cases v with
      | num x => exact absurd hv (h x)
      | str s => rfl
      | list l => rfl
      | boolv b => rfl

/-- A concrete log entry used by adapter witnesses. -/
def sampleEntry : LogEntry :=
  { Level := "info", Time := 0, Message := "m", Caller := "",
    NodeID := "", Module := "", IP := "", Properties := [] }

/-- A Kafka adapter with batch size 2 holding one buffered entry. -/
def kafkaB2 : KafkaAdapter :=
  { Brokers := ["localhost:9092"], Topic := "logs", BatchSize := 2,
    FlushTimeout := 5 * goSecond, buffer := [sampleEntry], sent := [] }

/-- An Elasticsearch adapter with bulk size 3 and an empty buffer. -/
def esB3 : EsAdapter :=
  { Hosts := ["http://localhost:9200"], Index := "logs", Username := "",
    Password := "", BulkSize := 3, FlushInterval := 10 * goSecond,
    buffer := [], sent := [] }

/-- Witness for claim C2: the second entry into a batch-size-2 Kafka
adapter triggers exactly one flush; the first entry into a bulk-size-3
Elasticsearch adapter only appends. -/
theorem process_batch_threshold_witness :
    ((kafkaB2.buffer.length + 1 : Int) = kafkaB2.BatchSize ∧
      kafkaProcess kafkaB2 sampleEntry
        = ({ kafkaB2 with buffer := [], sent := kafkaB2.sent ++ [kafkaB2.buffer ++ [sampleEntry]] }, none)) ∧
    ((esB3.buffer.length + 1 : Int) < esB3.BulkSize ∧
      esProcess esB3 sampleEntry
        = ({ esB3 with buffer := esB3.buffer ++ [sampleEntry] }, none)) :=
  ⟨⟨by decide, (process_batch_threshold kafkaB2 esB3 sampleEntry).1.1 (by decide)⟩,
   ⟨by decide, (process_batch_threshold kafkaB2 esB3 sampleEntry).2.2 (by decide)⟩⟩

/-- Witness for claim C5 on freshly constructed (empty-buffer) adapters. -/
theorem flush_empty_noop_witness :
    zeroKafka.buffer = [] ∧ kafkaFlush zeroKafka = (zeroKafka, none) ∧
    zeroEs.buffer = [] ∧ esFlush zeroEs = (zeroEs, none) :=
  ⟨rfl, (flush_empty_noop_and_idempotent zeroKafka zeroEs).1.1 rfl,
   rfl, (flush_empty_noop_and_idempotent zeroKafka zeroEs).2.1 rfl⟩

/-- A configuration map in which every recognized option is wrong-typed. -/
def badCfg : ConfigMap :=
  [("brokers", GoVal.str "oops"), ("topic", GoVal.num 3),
   ("batch_size", GoVal.str "many"), ("flush_timeout", GoVal.boolv true),
   ("hosts", GoVal.num 1), ("bulk_size", GoVal.list []),
   ("flush_interval", GoVal.str "x")]

/-- Witness for claim C6: on an all-wrong-typed configuration both Init
calls succeed and every option lands on its documented default. -/
theorem init_never_fails_defaults_witness :
    (kafkaInit badCfg).2 = none ∧ (esInit ⟨2023, 3, 15⟩ badCfg).2 = none ∧
    (kafkaInit badCfg).1.Brokers = ["localhost:9092"] ∧
    (kafkaInit badCfg).1.Topic = "logs" ∧
    (kafkaInit badCfg).1.BatchSize = 100 ∧
    (kafkaInit badCfg).1.FlushTimeout = 5 * goSecond ∧
    (esInit ⟨2023, 3, 15⟩ badCfg).1.Hosts = ["http://localhost:9200"] ∧
    (esInit ⟨2023, 3, 15⟩ badCfg).1.BulkSize = 200 ∧
    (esInit ⟨2023, 3, 15⟩ badCfg).1.FlushInterval = 10 * goSecond := by
  have h := init_never_fails_defaults badCfg ⟨2023, 3, 15⟩
  exact ⟨h.1, h.2.1,
    h.2.2.1 (fun l hl => GoVal.noConfusion (Option.some.inj hl)),
    h.2.2.2.1 (fun s hs => GoVal.noConfusion (Option.some.inj hs)),
    h.2.2.2.2.1 (fun x hx => GoVal.noConfusion (Option.some.inj hx)),
    h.2.2.2.2.2.1 (fun x hx => GoVal.noConfusion (Option.some.inj hx)),
    h.2.2.2.2.2.2.1 (fun l hl => GoVal.noConfusion (Option.some.inj hl)),
    h.2.2.2.2.2.2.2.1 (fun x hx => GoVal.noConfusion (Option.some.inj hx)),
    h.2.2.2.2.2.2.2.2 (fun x hx => GoVal.noConfusion (Option.some.inj hx))⟩

/-- Claim C7: a leveled logging call is fire-and-forget with respect to
the adapters: its caller-visible result is always nil, dispatch spawns
exactly one independent task per adapter, each task holds its own copy
of the one constructed entry, and every adapter result (errors
included) lands only in the discarded task-result list, never in what
the caller sees. -/
theorem dispatch_never_propagates (l : ZapLogger) (tnow : Nat) (level msg : String)
    (props : List (String × GoVal)) :
    (leveledCall l tnow level msg props).1 = none ∧
    (sendToAdapters l tnow level msg props).map Prod.fst = l.adapters ∧
    (∀ t ∈ sendToAdapters l tnow level msg props,
      t.2 = { Level := level, Time := tnow, Message := msg, Caller := "",
              NodeID := l.nodeID, Module := l.module, IP := l.ip,
              Properties := props }) ∧
    (leveledCall l tnow level msg props).2
      = (sendToAdapters l tnow level msg props).map (fun t => t.1.processA t.2) := by
  refine ⟨rfl, ?_, ?_, rfl⟩
  · unfold sendToAdapters
    by_cases h : l.adapters.length = 0
    · simp [h, List.length_eq_zero.mp h]
    · simp [h, Function.comp_def]
  · intro t ht
    unfold sendToAdapters at ht
    by_cases h : l.adapters.length = 0
    · simp [h] at ht
    · simp [h] at ht
      obtain ⟨a, _, rfl⟩ := ht
      rfl

/-- Claim C8: GetAdapter on a registered name returns found=true with a
freshly allocated instance holding exactly the registered constructor's
output (the uninitialized zero value for this repository's builtin
registrations); a second get returns a distinct new instance, so two
loggers configured with the same adapter name never share an instance;
an unregistered name returns found=false. -/
theorem getAdapter_returns_fresh_instance (reg : Registry) (heap : Heap) (nm : String) :
    (∀ c, reg.lookup nm = some c →
      getAdapter reg heap nm = (some (heap.length, c), heap ++ [c]) ∧
      (getAdapter reg ((getAdapter reg heap nm).2) nm).1
        = some (heap.length + 1, c) ∧
      heap.length + 1 ≠ heap.length) ∧
    (reg.lookup nm = none → getAdapter reg heap nm = (none, heap)) ∧
    lookupCreator builtinRegistry "kafka" = some (AdapterObj.kafka zeroKafka) ∧
    lookupCreator builtinRegistry "elasticsearch" = some (AdapterObj.elastic zeroEs) := by
  refine ⟨?_, ?_, rfl, rfl⟩
  · intro c h
    refine ⟨by simp [getAdapter, h], ?_, Nat.succ_ne_self _⟩
    simp [getAdapter, h]
  · intro h
    simp [getAdapter, h]

/-- Claim C9: Default never yields nil: it always returns (and stores) a
logger value; when nothing was initialized and the console-logger
construction failed it substitutes the degraded emptyLogger, whose
Close returns nil and whose leveled operations do nothing. -/
theorem default_never_nil (cur : Option LoggerVal) (res : Except GoErr ZapLogger) :
    (∃ l, defaultGet cur res = (l, some l)) ∧
    (∀ e, cur = none → res = Except.error e →
      (defaultGet cur res).1 = LoggerVal.empty) ∧
    emptyClose = none ∧
    (∀ tnow level msg, emptyLeveled tnow level msg = (none, [])) := by
  refine ⟨?_, ?_, rfl, fun _ _ _ => rfl⟩
  · cases cur with
    | some l => exact ⟨l, rfl⟩
    | none =>
      cases res with
      | error e => exact ⟨LoggerVal.empty, rfl⟩
      | ok l => exact ⟨LoggerVal.zap l, rfl⟩
  · intro e hc hr
    subst hc
    subst hr
    rfl

/-- Claim C10: constructing a logger with an AdapterConfig whose name is
unregistered behaves exactly as without that config (silently skipped,
absent from the adapter list), while a registered adapter whose Init
errors aborts the construction with a wrapped error. -/
theorem unknown_adapter_skipped_init_error_aborts (now : Date) (reg : Registry) (c : AdapterConfig)
    (rest : List AdapterConfig) (nodeID module ip : String) :
    (reg.lookup c.Name = none →
      newZapLogger now reg nodeID module ip (c :: rest)
        = newZapLogger now reg nodeID module ip rest) ∧
    (∀ creator e, reg.lookup c.Name = some creator →
      (creator.initA now c.Config).2 = some e →
      newZapLogger now reg nodeID module ip (c :: rest)
        = Except.error (GoErr.wrapped ("init adapter " ++ c.Name ++ " failed") e)) := by
  constructor
  · intro h
    simp [newZapLogger, initAdapters, h]
  · intro creator e h he
    rcases hres : creator.initA now c.Config with ⟨a', o⟩
    rw [hres] at he
    simp only at he
    subst he
    simp [newZapLogger, initAdapters, h, hres, Except.map]

/-- A test adapter whose Process always fails. -/
def failingAdapter : TestAdapter :=
  { tname := "t", processErr := some (GoErr.ioError "down") }

/-- A logger with only the failing adapter attached. -/
def zlFail : ZapLogger :=
  { adapters := [AdapterObj.test failingAdapter], nodeID := "", module := "", ip := "" }

/-- Witness for claim C7: even with an adapter whose Process errors, the
leveled call's caller-visible slot is nil; the one spawned task carries
the constructed entry and its error stays in the discarded results. -/
theorem dispatch_never_propagates_witness :
    (leveledCall zlFail 0 "error" "boom" []).1 = none ∧
    (AdapterObj.test failingAdapter,
      ({ Level := "error", Time := 0, Message := "boom", Caller := "",
         NodeID := "", Module := "", IP := "", Properties := [] } : LogEntry))
      ∈ sendToAdapters zlFail 0 "error" "boom" [] ∧
    (leveledCall zlFail 0 "error" "boom" []).2
      = [(AdapterObj.test failingAdapter, some (GoErr.ioError "down"))] := by
  have h := dispatch_never_propagates zlFail 0 "error" "boom" []
  refine ⟨h.1, ?_, ?_⟩
  · show _ ∈ [(AdapterObj.test failingAdapter, _)]
    exact List.mem_singleton.mpr rfl
  · rw [h.2.2.2]
    rfl

/-- Witness for claim C8 on the builtin registry: getting "kafka" twice
yields instances 0 and 1 (distinct), each the uninitialized zero value;
an unknown name yields found=false. -/
theorem getAdapter_fresh_witness :
    List.lookup "kafka" builtinRegistry = some (AdapterObj.kafka zeroKafka) ∧
    getAdapter builtinRegistry [] "kafka"
      = (some (0, AdapterObj.kafka zeroKafka), [AdapterObj.kafka zeroKafka]) ∧
    (getAdapter builtinRegistry ((getAdapter builtinRegistry [] "kafka").2) "kafka").1
      = some (1, AdapterObj.kafka zeroKafka) ∧
    List.lookup "missing" builtinRegistry = none ∧
    getAdapter builtinRegistry [] "missing" = (none, []) := by
  have h := (getAdapter_returns_fresh_instance builtinRegistry [] "kafka").1
    (AdapterObj.kafka zeroKafka) rfl
  have h2 := (getAdapter_returns_fresh_instance builtinRegistry [] "missing").2.1 rfl
  exact ⟨rfl, h.1, h.2.1, rfl, h2⟩

/-- Witness for claim C9: with no stored default and a failed console
construction, Default returns the emptyLogger, whose operations are
no-ops. -/
theorem default_never_nil_witness :
    (defaultGet none (Except.error (GoErr.ioError "cannot build"))).1
      = LoggerVal.empty ∧
    emptyClose = none ∧ emptyLeveled 0 "info" "x" = (none, []) := by
  have h := default_never_nil none (Except.error (GoErr.ioError "cannot build"))
  exact ⟨h.2.1 (GoErr.ioError "cannot build") rfl rfl, h.2.2.1, h.2.2.2 0 "info" "x"⟩

/-- A registry holding one test adapter whose Init fails. -/
def regT : Registry :=
  [("t", AdapterObj.test { tname := "t", initErr := some (GoErr.ioError "no conn") })]

/-- Witness for claim C10: an unknown adapter name is skipped (empty
adapter list, no error), while the failing registered adapter aborts
construction with the wrapped init error. -/
theorem unknown_adapter_skipped_witness :
    List.lookup "unknown" regT = none ∧
    newZapLogger ⟨2023, 3, 15⟩ regT "" "" "" [⟨"unknown", []⟩]
      = Except.ok { adapters := [], nodeID := "", module := "", ip := "" } ∧
    (AdapterObj.initA ⟨2023, 3, 15⟩
      (AdapterObj.test { tname := "t", initErr := some (GoErr.ioError "no conn") }) []).2
      = some (GoErr.ioError "no conn") ∧
    newZapLogger ⟨2023, 3, 15⟩ regT "" "" "" [⟨"t", []⟩]
      = Except.error (GoErr.wrapped "init adapter t failed" (GoErr.ioError "no conn")) := by
  have h1 := (unknown_adapter_skipped_init_error_aborts ⟨2023, 3, 15⟩ regT
    ⟨"unknown", []⟩ [] "" "" "").1 rfl
  have h2 := (unknown_adapter_skipped_init_error_aborts ⟨2023, 3, 15⟩ regT
    ⟨"t", []⟩ [] "" "" "").2
    (AdapterObj.test { tname := "t", initErr := some (GoErr.ioError "no conn") })
    (GoErr.ioError "no conn") rfl rfl
  refine ⟨rfl, ?_, rfl, ?_⟩
  · rw [h1]
    rfl
  · rw [h2]
    rfl
